import Mathlib

/-!
Verification of the `uber_backend` ride-hailing core: the fare/distance
calculator (`src/utils/fareCalculator.js`) and the ride lifecycle routes
(`src/routes/rides.js`) together with the Mongoose pre-save hooks of
`src/models/Ride.js`.

Modelling conventions:
* JavaScript numbers are modelled as exact rationals (`ℚ`) where the source
  only performs field arithmetic, and as reals (`ℝ`) where the haversine
  distance needs trigonometric functions.  `Math.round(x * 100) / 100` is
  modelled as `⌊x * 100 + 1/2⌋ / 100` (round half up, which agrees with
  round-half-away-from-zero on the nonnegative values arising here).
* The configured rate `parseFloat(process.env.FARE_PER_KM) || 15` is passed
  as an explicit parameter `farePerKm`; the repository ships no environment
  file, so the deployed default is `15`.
* Mongoose documents are modelled as plain records; a route handler together
  with the `pre('save')` hooks of the schema is one pure function from the
  previous record to `Except RideError` of the saved record.
-/

namespace UberBackend

/-! ### Rounding helpers -/

/-- Models `Math.round(x * 100) / 100` on an exact rational value:
rounding to two decimal places with ties rounded up. -/
def jsRound2 (x : ℚ) : ℚ := (⌊x * 100 + 1/2⌋ : ℚ) / 100

/-- Models `Math.round(x * 100) / 100` applied to a real value (the haversine
distance); the result of the rounding is an exact rational. -/
noncomputable def jsRound2R (x : ℝ) : ℚ := (⌊x * 100 + 1/2⌋ : ℚ) / 100

/-! ### Distance (fareCalculator.js, `calculateDistance` / `toRadians`) -/

/-- Models `toRadians`: `degrees * (Math.PI / 180)`. -/
noncomputable def toRadians (degrees : ℝ) : ℝ := degrees * (Real.pi / 180)

/-- Models `Math.atan2 y x` (real-number semantics; the source only applies it
to nonnegative square roots, i.e. the first quadrant). -/
noncomputable def jsAtan2 (y x : ℝ) : ℝ :=
  if 0 < x then Real.arctan (y / x)
  else if x = 0 then
    if 0 < y then Real.pi / 2
    else if y < 0 then -(Real.pi / 2)
    else 0
  else
    if 0 ≤ y then Real.arctan (y / x) + Real.pi
    else Real.arctan (y / x) - Real.pi

/-- Models `calculateDistance(lat1, lon1, lat2, lon2)`: haversine distance with
Earth radius 6371 km, rounded to 2 decimal places. -/
noncomputable def calculateDistance (lat1 lon1 lat2 lon2 : ℝ) : ℚ :=
  let dLat := toRadians (lat2 - lat1)
  let dLon := toRadians (lon2 - lon1)
  let a := Real.sin (dLat / 2) * Real.sin (dLat / 2) +
    Real.cos (toRadians lat1) * Real.cos (toRadians lat2) *
    Real.sin (dLon / 2) * Real.sin (dLon / 2)
  let c := 2 * jsAtan2 (Real.sqrt a) (Real.sqrt (1 - a))
  jsRound2R (6371 * c)

/-- Models `validateCoordinates(latitude, longitude)` from fareCalculator.js. -/
def validateCoordinates (latitude longitude : ℝ) : Prop :=
  -90 ≤ latitude ∧ latitude ≤ 90 ∧ -180 ≤ longitude ∧ longitude ≤ 180

/-! ### Fare (fareCalculator.js, `calculateFare` / `estimateFare`) -/

/-- The `rideTypeMultipliers` object literal together with the
`rideTypeMultipliers[rideType] || 1.0` lookup, restricted to lookups that do
not hit an inherited `Object.prototype` property: an own key returns its
table value and an absent key yields `undefined` (falsy), so `|| 1.0`
applies.  The claims quantifying over the closed category enum use this
function; the full JavaScript lookup semantics, in which keys such as
`"constructor"` or `"toString"` find a truthy non-numeric inherited property,
is modelled by `rideTypeMultiplierLookup` below. -/
def rideTypeMultipliers (rideType : String) : ℚ :=
  if rideType = "economy" then 1
  else if rideType = "premium" then 3/2
  else if rideType = "luxury" then 2
  else 1

/-- The object returned by `calculateFare`. -/
structure FareBreakdown where
  baseFare : ℚ
  gst : ℚ
  totalFare : ℚ
  distance : ℚ
  farePerKm : ℚ
  rideType : String
  deriving DecidableEq, Repr

/-- Models `calculateFare(distance, rideType = 'economy')`.  `farePerKm` models the
ambient `parseFloat(process.env.FARE_PER_KM) || 15` configuration value. -/
def calculateFare (farePerKm : ℚ) (distance : ℚ)
    (rideType : String := "economy") : FareBreakdown :=
  let baseFare : ℚ := 50
  let minimumFare : ℚ := 80
  let multiplier := rideTypeMultipliers rideType
  let calculatedFare := baseFare + distance * farePerKm * multiplier
  let calculatedFare := if calculatedFare < minimumFare then minimumFare else calculatedFare
  let gst := calculatedFare * (18/100)
  let totalFare := calculatedFare + gst
  { baseFare := jsRound2 calculatedFare
    gst := jsRound2 gst
    totalFare := jsRound2 totalFare
    distance := distance
    farePerKm := farePerKm
    rideType := rideType }

/-- A `Location` document (`locationSchema` of Ride.js). -/
structure Coordinates where
  latitude : ℝ
  longitude : ℝ

structure Location where
  address : String
  coordinates : Coordinates

/-- The object returned by `estimateFare` (spread of the fare breakdown plus
the estimated time and the two addresses). -/
structure FareEstimate extends FareBreakdown where
  estimatedTime : ℤ
  pickup : String
  drop : String

/-- Models `estimateFare(pickup, drop, rideType = 'economy')`. -/
noncomputable def estimateFare (farePerKm : ℚ) (pickup drop : Location)
    (rideType : String := "economy") : FareEstimate :=
  let distance := calculateDistance
    pickup.coordinates.latitude pickup.coordinates.longitude
    drop.coordinates.latitude drop.coordinates.longitude
  let fareBreakdown := calculateFare farePerKm distance rideType
  let estimatedTime : ℤ := ⌈distance / 30 * 60⌉
  { fareBreakdown with
    estimatedTime := estimatedTime
    pickup := pickup.address
    drop := drop.address }

/-! ### Full JavaScript lookup semantics of `rideTypeMultipliers[rideType]` -/

/-- Property names a bare object literal inherits from `Object.prototype`.
For these keys `rideTypeMultipliers[rideType]` finds the inherited function
(or, for `__proto__`, the prototype object itself): a truthy, non-numeric
value. -/
def objectPrototypeKeys : List String :=
  ["constructor", "hasOwnProperty", "isPrototypeOf", "propertyIsEnumerable",
   "toLocaleString", "toString", "valueOf", "__defineGetter__",
   "__defineSetter__", "__lookupGetter__", "__lookupSetter__", "__proto__"]

/-- Result of the JavaScript expression `rideTypeMultipliers[rideType] || 1.0`:
either a number, or a truthy non-numeric inherited property (which the `||`
fallback does not replace). -/
inductive JsMultiplier where
  | num (q : ℚ)
  | nonNumeric
  deriving DecidableEq, Repr

/-- Models `rideTypeMultipliers[rideType] || 1.0` with full property-lookup
semantics: an own key of the object literal returns its table value; an
inherited `Object.prototype` key returns a truthy non-numeric value, so the
`|| 1.0` fallback does not apply; any other key yields `undefined` (falsy)
and falls back to `1.0`. -/
def rideTypeMultiplierLookup (rideType : String) : JsMultiplier :=
  if rideType = "economy" then .num 1
  else if rideType = "premium" then .num (3/2)
  else if rideType = "luxury" then .num 2
  else if rideType ∈ objectPrototypeKeys then .nonNumeric
  else .num 1

/-- The `baseFare` / `gst` / `totalFare` fields of `calculateFare` under full
JavaScript lookup semantics; `none` models `NaN` (the other returned fields
are echoes of the inputs and are omitted). -/
structure FareBreakdownJs where
  baseFare : Option ℚ
  gst : Option ℚ
  totalFare : Option ℚ
  deriving DecidableEq, Repr

/-- Models `calculateFare(distance, rideType)` with the full lookup semantics
of `rideTypeMultipliers[rideType] || 1.0`.  When the multiplier is a number
the arithmetic is that of `calculateFare`.  When the lookup hits an inherited
`Object.prototype` property, `distance * farePerKm * multiplier` is `NaN`;
`NaN < minimumFare` is false so the minimum-fare clamp keeps `NaN`, and the
18% tax, the sum and `Math.round` all propagate `NaN`. -/
def calculateFareJs (farePerKm : ℚ) (distance : ℚ) (rideType : String) :
    FareBreakdownJs :=
  match rideTypeMultiplierLookup rideType with
  | .num multiplier =>
    let baseFare : ℚ := 50
    let minimumFare : ℚ := 80
    let calculatedFare := baseFare + distance * farePerKm * multiplier
    let calculatedFare := if calculatedFare < minimumFare then minimumFare else calculatedFare
    let gst := calculatedFare * (18/100)
    let totalFare := calculatedFare + gst
    { baseFare := some (jsRound2 calculatedFare)
      gst := some (jsRound2 gst)
      totalFare := some (jsRound2 totalFare) }
  | .nonNumeric =>
    { baseFare := none, gst := none, totalFare := none }

/-! ### Helper lemmas about the fare arithmetic -/

/-- The mutable `if (calculatedFare < minimumFare)` clamp is a `max`. -/
lemma ite_lt_eq_max (x m : ℚ) : (if x < m then m else x) = max x m := by
  split
  · exact (max_eq_right (le_of_lt (by assumption))).symm
  · exact (max_eq_left (le_of_not_lt (by assumption))).symm

lemma jsRound2_mono {a b : ℚ} (h : a ≤ b) : jsRound2 a ≤ jsRound2 b := by
  unfold jsRound2
  have : (⌊a * 100 + 1/2⌋ : ℤ) ≤ ⌊b * 100 + 1/2⌋ := by
    apply Int.floor_le_floor
    nlinarith
  have hc : ((⌊a * 100 + 1/2⌋ : ℤ) : ℚ) ≤ ((⌊b * 100 + 1/2⌋ : ℤ) : ℚ) := by
    exact_mod_cast this
  nlinarith

/-- The pre-rounding total fare of `calculateFare`, as a closed form. -/
lemma calculateFare_totalFare (farePerKm distance : ℚ) (rideType : String) :
    (calculateFare farePerKm distance rideType).totalFare =
      jsRound2 (max (50 + distance * farePerKm * rideTypeMultipliers rideType) 80 * (118/100)) := by
  unfold calculateFare
  dsimp only
  rw [ite_lt_eq_max]
  ring_nf

lemma rideTypeMultipliers_pos (rideType : String) : 0 < rideTypeMultipliers rideType := by
  unfold rideTypeMultipliers
  repeat' split
  all_goals norm_num

/-! ### Claims about the fare quote -/

/-- C3: for every pickup and drop `Location` with valid coordinates and every
category `c` in {economy, premium, luxury}, the quote returns
`adjusted = max (50 + d * farePerKm * multiplier c) 80` with multiplier
1 / 1.5 / 2 for economy / premium / luxury, `gst = adjusted * 0.18`,
`totalFare = adjusted + gst`, each rounded independently to two decimal
places, and `estimatedMinutes = ⌈d / 30 * 60⌉`, where `d` is the haversine
distance; `estimateFare` is a total function, so it never fails on such
inputs. -/
theorem c3_quote_formula (farePerKm : ℚ) (pickup drop : Location) (c : String)
    (_hp : validateCoordinates pickup.coordinates.latitude pickup.coordinates.longitude)
    (_hd : validateCoordinates drop.coordinates.latitude drop.coordinates.longitude)
    (hc : c = "economy" ∨ c = "premium" ∨ c = "luxury") :
    (estimateFare farePerKm pickup drop c).baseFare =
      jsRound2 (max (50 + calculateDistance pickup.coordinates.latitude
          pickup.coordinates.longitude drop.coordinates.latitude drop.coordinates.longitude
          * farePerKm * (if c = "economy" then 1 else if c = "premium" then 3/2 else 2)) 80) ∧
    (estimateFare farePerKm pickup drop c).gst =
      jsRound2 (max (50 + calculateDistance pickup.coordinates.latitude
          pickup.coordinates.longitude drop.coordinates.latitude drop.coordinates.longitude
          * farePerKm * (if c = "economy" then 1 else if c = "premium" then 3/2 else 2)) 80
        * (18/100)) ∧
    (estimateFare farePerKm pickup drop c).totalFare =
      jsRound2 (max (50 + calculateDistance pickup.coordinates.latitude
          pickup.coordinates.longitude drop.coordinates.latitude drop.coordinates.longitude
          * farePerKm * (if c = "economy" then 1 else if c = "premium" then 3/2 else 2)) 80
        + max (50 + calculateDistance pickup.coordinates.latitude
          pickup.coordinates.longitude drop.coordinates.latitude drop.coordinates.longitude
          * farePerKm * (if c = "economy" then 1 else if c = "premium" then 3/2 else 2)) 80
        * (18/100)) ∧
    (estimateFare farePerKm pickup drop c).estimatedTime =
      ⌈calculateDistance pickup.coordinates.latitude pickup.coordinates.longitude
        drop.coordinates.latitude drop.coordinates.longitude / 30 * 60⌉ := by
  have hm : rideTypeMultipliers c =
      (if c = "economy" then 1 else if c = "premium" then 3/2 else (2:ℚ)) := by
    rcases hc with h | h | h <;> subst h <;> simp [rideTypeMultipliers]
  unfold estimateFare calculateFare
  dsimp only
  rw [ite_lt_eq_max, hm]
  exact ⟨rfl, rfl, rfl, rfl⟩

/-- Witness for C3 at the Mumbai coordinates of the spec scenario. -/
theorem c3_quote_formula_witness :
    (estimateFare 15 ⟨"Andheri", ⟨19.0760, 72.8777⟩⟩ ⟨"Juhu", ⟨19.0896, 72.8656⟩⟩
        "economy").estimatedTime =
      ⌈calculateDistance 19.0760 72.8777 19.0896 72.8656 / 30 * 60⌉ :=
  (c3_quote_formula 15 ⟨"Andheri", ⟨19.0760, 72.8777⟩⟩ ⟨"Juhu", ⟨19.0896, 72.8656⟩⟩
    "economy" (by norm_num [validateCoordinates]) (by norm_num [validateCoordinates])
    (Or.inl rfl)).2.2.2

/-- C7: for a fixed distance `d ≥ 0` and a fixed (nonnegative) fare-per-km
rate, the total fares are ordered by category:
economy ≤ premium ≤ luxury. -/
theorem c7_category_ordering (farePerKm d : ℚ) (hd : 0 ≤ d) (hf : 0 ≤ farePerKm) :
    (calculateFare farePerKm d "economy").totalFare ≤
      (calculateFare farePerKm d "premium").totalFare ∧
    (calculateFare farePerKm d "premium").totalFare ≤
      (calculateFare farePerKm d "luxury").totalFare := by
  have hdf : (0:ℚ) ≤ d * farePerKm := mul_nonneg hd hf
  have he : rideTypeMultipliers "economy" = 1 := by simp [rideTypeMultipliers]
  have hp : rideTypeMultipliers "premium" = 3/2 := by simp [rideTypeMultipliers]
  have hl : rideTypeMultipliers "luxury" = 2 := by simp [rideTypeMultipliers]
  constructor
  · rw [calculateFare_totalFare, calculateFare_totalFare, he, hp]
    apply jsRound2_mono
    apply mul_le_mul_of_nonneg_right _ (by norm_num)
    apply max_le_max _ le_rfl
    nlinarith
  · rw [calculateFare_totalFare, calculateFare_totalFare, hp, hl]
    apply jsRound2_mono
    apply mul_le_mul_of_nonneg_right _ (by norm_num)
    apply max_le_max _ le_rfl
    nlinarith

/-- Witness for C7 at distance 5 km and the default rate 15. -/
theorem c7_category_ordering_witness :
    (0:ℚ) ≤ 5 ∧ (0:ℚ) ≤ 15 ∧
    ((calculateFare 15 5 "economy").totalFare ≤ (calculateFare 15 5 "premium").totalFare ∧
     (calculateFare 15 5 "premium").totalFare ≤ (calculateFare 15 5 "luxury").totalFare) :=
  ⟨by norm_num, by norm_num, c7_category_ordering 15 5 (by norm_num) (by norm_num)⟩

/-- C8: for a fixed category and a fixed (nonnegative) fare-per-km rate, the
total fare is monotonically non-decreasing in the distance. -/
theorem c8_distance_monotone (c : String) (farePerKm d1 d2 : ℚ)
    (_h0 : 0 ≤ d1) (h12 : d1 ≤ d2) (hf : 0 ≤ farePerKm) :
    (calculateFare farePerKm d1 c).totalFare ≤ (calculateFare farePerKm d2 c).totalFare := by
  have hm := rideTypeMultipliers_pos c
  rw [calculateFare_totalFare, calculateFare_totalFare]
  apply jsRound2_mono
  apply mul_le_mul_of_nonneg_right _ (by norm_num)
  apply max_le_max _ le_rfl
  nlinarith [mul_nonneg (mul_nonneg (sub_nonneg.mpr h12) hf) (le_of_lt hm)]

/-- Witness for C8: economy fare at 2 km versus 7 km with the default rate. -/
theorem c8_distance_monotone_witness :
    (0:ℚ) ≤ 2 ∧ (2:ℚ) ≤ 7 ∧
    (calculateFare 15 2 "economy").totalFare ≤ (calculateFare 15 7 "economy").totalFare :=
  ⟨by norm_num, by norm_num, c8_distance_monotone "economy" 15 2 7 (by norm_num) (by norm_num) (by norm_num)⟩

/-- C10 (amended): a `rideType` outside {economy, premium, luxury} that is
also not the name of an inherited `Object.prototype` property looks up as
`undefined`, falls back to multiplier 1.0 and returns the economy breakdown;
but a `rideType` naming an inherited `Object.prototype` property (such as
"constructor" or "toString") finds a truthy non-numeric value, the `|| 1.0`
fallback does not apply, and `baseFare`, `gst` and `totalFare` are all
`NaN`. -/
theorem c10_category_fallback (farePerKm d : ℚ) (s : String)
    (hs : s ∉ (["economy", "premium", "luxury"] : List String)) :
    (s ∉ objectPrototypeKeys →
      (calculateFareJs farePerKm d s).baseFare =
        some (calculateFare farePerKm d "economy").baseFare ∧
      (calculateFareJs farePerKm d s).gst =
        some (calculateFare farePerKm d "economy").gst ∧
      (calculateFareJs farePerKm d s).totalFare =
        some (calculateFare farePerKm d "economy").totalFare) ∧
    (s ∈ objectPrototypeKeys →
      calculateFareJs farePerKm d s = ⟨none, none, none⟩) := by
  have hs3 : s ≠ "economy" ∧ s ≠ "premium" ∧ s ≠ "luxury" := by
    simp only [List.mem_cons, List.not_mem_nil, or_false, not_or] at hs
    exact hs
  obtain ⟨h1, h2, h3⟩ := hs3
  constructor
  · intro hp
    have hlk : rideTypeMultiplierLookup s = .num 1 := by
      unfold rideTypeMultiplierLookup
      rw [if_neg h1, if_neg h2, if_neg h3, if_neg hp]
    unfold calculateFareJs
    rw [hlk]
    unfold calculateFare
    dsimp only
    rw [show rideTypeMultipliers "economy" = 1 by simp [rideTypeMultipliers]]
    exact ⟨rfl, rfl, rfl⟩
  · intro hp
    have hlk : rideTypeMultiplierLookup s = .nonNumeric := by
      unfold rideTypeMultiplierLookup
      rw [if_neg h1, if_neg h2, if_neg h3, if_pos hp]
    unfold calculateFareJs
    rw [hlk]

/-- C10 counterexample: the rideType "constructor" is outside the category
set, yet the fare breakdown is NaN in every field (the lookup finds the
inherited `Object` constructor, which is truthy and non-numeric), not the
economy breakdown. -/
theorem c10_counterexample :
    "constructor" ∉ (["economy", "premium", "luxury"] : List String) ∧
    (calculateFareJs 15 5 "constructor").baseFare = none ∧
    (calculateFareJs 15 5 "constructor").baseFare ≠
      some (calculateFare 15 5 "economy").baseFare := by
  refine ⟨by decide, rfl, ?_⟩
  rw [show (calculateFareJs 15 5 "constructor").baseFare = none from rfl]
  simp

/-- Witness for C10 at the unknown plain category "suv" and the inherited
key "constructor". -/
theorem c10_category_fallback_witness :
    (calculateFareJs 15 5 "suv").baseFare = some (calculateFare 15 5 "economy").baseFare ∧
    calculateFareJs 15 5 "constructor" = ⟨none, none, none⟩ :=
  ⟨((c10_category_fallback 15 5 "suv" (by decide)).1 (by decide)).1,
   (c10_category_fallback 15 5 "constructor" (by decide)).2 (by decide)⟩

/-! ### Claims about the distance function -/

lemma toRadians_sub_swap (x y : ℝ) : toRadians (x - y) = -(toRadians (y - x)) := by
  unfold toRadians; ring

/-- The haversine `a` term is symmetric in the two coordinate points. -/
lemma hav_a_symm (lat1 lon1 lat2 lon2 : ℝ) :
    Real.sin (toRadians (lat1 - lat2) / 2) * Real.sin (toRadians (lat1 - lat2) / 2) +
      Real.cos (toRadians lat2) * Real.cos (toRadians lat1) *
      Real.sin (toRadians (lon1 - lon2) / 2) * Real.sin (toRadians (lon1 - lon2) / 2) =
    Real.sin (toRadians (lat2 - lat1) / 2) * Real.sin (toRadians (lat2 - lat1) / 2) +
      Real.cos (toRadians lat1) * Real.cos (toRadians lat2) *
      Real.sin (toRadians (lon2 - lon1) / 2) * Real.sin (toRadians (lon2 - lon1) / 2) := by
  rw [toRadians_sub_swap lat1 lat2, toRadians_sub_swap lon1 lon2]
  simp only [neg_div, Real.sin_neg]
  ring

lemma calculateDistance_self (lat lon : ℝ) : calculateDistance lat lon lat lon = 0 := by
  unfold calculateDistance jsRound2R
  dsimp only
  have hz : ∀ x : ℝ, toRadians (x - x) = 0 := fun x => by simp [toRadians]
  rw [hz lat, hz lon]
  simp only [zero_div, Real.sin_zero, mul_zero, zero_mul, add_zero, zero_add]
  rw [Real.sqrt_zero, sub_zero, Real.sqrt_one]
  have hat : jsAtan2 0 1 = 0 := by
    unfold jsAtan2
    rw [if_pos one_pos]
    simp [Real.arctan_zero]
  rw [hat]
  norm_num

/-- C9: the rounded haversine distance is symmetric in its two coordinate
points, and the distance from a point to itself is zero. -/
theorem c9_distance_symm_self (lat1 lon1 lat2 lon2 : ℝ)
    (_h1 : validateCoordinates lat1 lon1) (_h2 : validateCoordinates lat2 lon2) :
    calculateDistance lat1 lon1 lat2 lon2 = calculateDistance lat2 lon2 lat1 lon1 ∧
    calculateDistance lat1 lon1 lat1 lon1 = 0 := by
  constructor
  · unfold calculateDistance
    dsimp only
    rw [hav_a_symm lat1 lon1 lat2 lon2]
  · exact calculateDistance_self lat1 lon1

/-- Witness for C9 at the Mumbai coordinates of the spec scenario. -/
theorem c9_distance_symm_self_witness :
    calculateDistance 19.0760 72.8777 19.0896 72.8656 =
      calculateDistance 19.0896 72.8656 19.0760 72.8777 ∧
    calculateDistance 19.0760 72.8777 19.0760 72.8777 = 0 :=
  c9_distance_symm_self 19.0760 72.8777 19.0896 72.8656
    (by norm_num [validateCoordinates]) (by norm_num [validateCoordinates])

/-- The haversine distance from (-45°, 0°) to (45°, 0°): a quarter of the
great circle, `6371 * π / 2` km, which rounds to exactly 10007.54 km. -/
lemma calculateDistance_quarter : calculateDistance (-45) 0 45 0 = 1000754 / 100 := by
  unfold calculateDistance jsRound2R
  dsimp only
  have h1 : toRadians (45 - -45) = Real.pi / 2 := by unfold toRadians; ring
  have h2 : toRadians ((0:ℝ) - 0) = 0 := by unfold toRadians; ring
  rw [h1, h2]
  rw [show Real.pi / 2 / 2 = Real.pi / 4 by ring]
  rw [Real.sin_pi_div_four]
  simp only [zero_div, Real.sin_zero, mul_zero, add_zero]
  have ha : (Real.sqrt 2 / 2) * (Real.sqrt 2 / 2) = 1/2 := by
    rw [div_mul_div_comm, Real.mul_self_sqrt (by norm_num : (0:ℝ) ≤ 2)]
    norm_num
  rw [ha]
  rw [show (1:ℝ) - 1/2 = 1/2 by norm_num]
  have hat : jsAtan2 (Real.sqrt (1/2)) (Real.sqrt (1/2)) = Real.pi / 4 := by
    unfold jsAtan2
    rw [if_pos (Real.sqrt_pos.mpr (by norm_num))]
    rw [div_self (ne_of_gt (Real.sqrt_pos.mpr (by norm_num)))]
    exact Real.arctan_one
  rw [hat]
  rw [show (6371:ℝ) * (2 * (Real.pi/4)) * 100 + 1/2 = 318550 * Real.pi + 1/2 by ring]
  have hfl : ⌊(318550:ℝ) * Real.pi + 1/2⌋ = 1000754 := by
    rw [Int.floor_eq_iff]
    constructor
    · push_cast
      nlinarith [Real.pi_gt_d6]
    · push_cast
      nlinarith [Real.pi_lt_d6]
  rw [hfl]
  norm_num

/-! ### Ride documents (src/models/Ride.js) and the ride routes
(src/routes/rides.js).

A route handler together with the two `pre('save')` hooks of the schema is
modelled as one pure function from the previously stored document to
`Except RideError` of the saved document.  Fields never touched by any
modelled operation (payment, rating, timestamps) are omitted.  `userId` is
an abstract numeric identity. -/

structure Fare where
  baseFare : ℚ
  totalFare : ℚ
  currency : String := "INR"
  deriving DecidableEq, Repr

structure HistoryEntry where
  action : String
  details : String
  deriving DecidableEq, Repr

structure Ride where
  userId : ℕ
  driverId : Option ℕ := none
  status : String := "pending"
  pickupLocation : Location
  dropLocation : Location
  originalDropLocation : Option Location := none
  distance : ℚ
  estimatedDuration : Option ℤ := none
  fare : Fare
  cancellationReason : Option String := none
  cancelledBy : Option String := none
  history : List HistoryEntry := []
  notes : Option String := none

/-- The error taxonomy of the routes: the 409 booking conflict and the 404
"not found or cannot be modified / cancelled" rejection. -/
inductive RideError where
  | activeRideConflict
  | rideNotModifiable
  deriving DecidableEq, Repr

/-- JavaScript `v || dflt` on strings (`undefined` and `""` are falsy). -/
def jsOrDefault (v : Option String) (dflt : String) : String :=
  match v with
  | none => dflt
  | some s => if s = "" then dflt else s

/-- Predicate `isActiveStatus`: membership in the `$in: ['pending','accepted','started']`
filter used by the book / active-ride queries. -/
def isActiveStatus (s : String) : Bool :=
  s == "pending" || s == "accepted" || s == "started"

/-- The `Ride.findOne({ userId, status: { $in: [...] } })` active-ride check of
POST /rides/book. -/
def hasActiveRide (state : List Ride) (userId : ℕ) : Bool :=
  state.any (fun r => r.userId == userId && isActiveStatus r.status)

/-- POST /rides/book followed by `ride.save()`: the active-ride conflict
check, the distance/fare computation, document creation, and the two
`pre('save')` hooks (`isNew` pushes the "created" history entry; the second
hook sets `estimatedDuration` when the distance field is set and truthy).
On success returns the saved ride and the collection with it inserted. -/
noncomputable def bookRide (farePerKm : ℚ) (state : List Ride) (userId : ℕ)
    (pickupLocation dropLocation : Location) (rideType : String := "economy")
    (notes : Option String := none) : Except RideError (Ride × List Ride) :=
  if hasActiveRide state userId then .error .activeRideConflict
  else
    let distance := calculateDistance
      pickupLocation.coordinates.latitude pickupLocation.coordinates.longitude
      dropLocation.coordinates.latitude dropLocation.coordinates.longitude
    let fareEstimate := estimateFare farePerKm pickupLocation dropLocation rideType
    let ride : Ride :=
      { userId := userId
        status := "pending"
        pickupLocation := pickupLocation
        dropLocation := dropLocation
        originalDropLocation := some dropLocation
        distance := distance
        fare := { baseFare := fareEstimate.baseFare, totalFare := fareEstimate.totalFare }
        notes := notes }
    let ride1 := { ride with history := ride.history ++
      [({ action := "created", details := "Ride request created" } : HistoryEntry)] }
    let ride2 := if distance ≠ 0 then
      { ride1 with estimatedDuration := some ⌈distance / 30 * 60⌉ } else ride1
    .ok (ride2, state ++ [ride2])

/-- POST /rides/:id/cancel followed by `ride.save()`: the
`status: { $in: ['pending','accepted'] }` query guard, the field mutations,
the explicit history push of the route, and the `pre('save')` hook which
pushes a second entry because `status` was modified. -/
def cancelRide (r : Ride) (reason : Option String) : Except RideError Ride :=
  if r.status = "pending" ∨ r.status = "accepted" then
    let cancellationReason := jsOrDefault reason "Cancelled by user"
    let r1 := { r with
      status := "cancelled"
      cancellationReason := some cancellationReason
      cancelledBy := some "user"
      history := r.history ++
        [({ action := "cancelled", details := cancellationReason } : HistoryEntry)] }
    let r2 := { r1 with history := r1.history ++
      [({ action := r1.status, details := "Ride status changed to " ++ r1.status } : HistoryEntry)] }
    .ok r2
  else .error .rideNotModifiable

/-- PUT /rides/:id/update-destination followed by `ride.save()`: the
`status: { $in: ['accepted','started'] }` query guard, the re-quote — note the
source calls `estimateFare(ride.pickupLocation, dropLocation)` without a
category, i.e. with the default `"economy"` — the field mutations, the
explicit history push, and the `pre('save')` hooks (`status` is unmodified so
no extra history entry; `estimatedDuration` recomputes when the stored
distance actually changes to a truthy value). -/
noncomputable def updateDestination (farePerKm : ℚ) (r : Ride)
    (dropLocation : Location) : Except RideError Ride :=
  if r.status = "accepted" ∨ r.status = "started" then
    let newDistance := calculateDistance
      r.pickupLocation.coordinates.latitude r.pickupLocation.coordinates.longitude
      dropLocation.coordinates.latitude dropLocation.coordinates.longitude
    let newFareEstimate := estimateFare farePerKm r.pickupLocation dropLocation
    let r1 := { r with
      dropLocation := dropLocation
      distance := newDistance
      fare := { r.fare with
        baseFare := newFareEstimate.baseFare
        totalFare := newFareEstimate.totalFare }
      history := r.history ++
        [({ action := "destination_updated"
            details := "Destination updated to " ++ dropLocation.address } : HistoryEntry)] }
    let r2 := if newDistance ≠ r.distance ∧ newDistance ≠ 0 then
      { r1 with estimatedDuration := some ⌈newDistance / 30 * 60⌉ } else r1
    .ok r2
  else .error .rideNotModifiable

/-- A finite sequence of `updateDestination` commands, each applied to the
result of the previous one and failing the whole chain on rejection. -/
noncomputable def chainUpdates (farePerKm : ℚ) (r : Ride) :
    List Location → Except RideError Ride
  | [] => .ok r
  | d :: ds => (updateDestination farePerKm r d).bind fun r' =>
      chainUpdates farePerKm r' ds

/-- Ride states reachable through the modelled operations: a freshly booked
ride, and the successful result of cancel / update-destination on a
reachable state. -/
inductive Reachable (farePerKm : ℚ) : Ride → Prop where
  | book (state : List Ride) (userId : ℕ) (pickup drop : Location)
      (rideType : String) (notes : Option String) (r : Ride) (s' : List Ride)
      (h : bookRide farePerKm state userId pickup drop rideType notes = .ok (r, s')) :
      Reachable farePerKm r
  | cancel (r : Ride) (reason : Option String) (r' : Ride)
      (hr : Reachable farePerKm r) (h : cancelRide r reason = .ok r') :
      Reachable farePerKm r'
  | update (r : Ride) (d : Location) (r' : Ride)
      (hr : Reachable farePerKm r) (h : updateDestination farePerKm r d = .ok r') :
      Reachable farePerKm r'

/-- "At most one ride per rider is in a non-terminal status." -/
def atMostOneActivePerRider (state : List Ride) : Prop :=
  ∀ uid, (state.filter fun r => r.userId == uid && isActiveStatus r.status).length ≤ 1

/-! ### Concrete sample data used by counterexamples and witnesses -/

def locA : Location := ⟨"Origin", ⟨-45, 0⟩⟩

def locB : Location := ⟨"Destination", ⟨45, 0⟩⟩

def locC : Location := ⟨"NewDestination", ⟨45, 0⟩⟩

/-- A freshly booked (economy) ride of rider 1 from `locA` to `locB`. -/
def pendingRide : Ride :=
  { userId := 1
    status := "pending"
    pickupLocation := locA
    dropLocation := locB
    originalDropLocation := some locB
    distance := 1000754/100
    estimatedDuration := some 20016
    fare := { baseFare := 1501631/10, totalFare := 17719246/100 }
    history := [⟨"created", "Ride request created"⟩] }

def startedRide : Ride :=
  { pendingRide with
    status := "started"
    history := pendingRide.history ++
      [⟨"accepted", "Ride status changed to accepted"⟩,
       ⟨"started", "Ride status changed to started"⟩] }

/-- A ride of rider 2 booked with category `"premium"` (its stored fare is the
premium quote for `locA → locB`) that a driver has accepted. -/
def premiumAcceptedRide : Ride :=
  { userId := 2
    status := "accepted"
    pickupLocation := locA
    dropLocation := locB
    originalDropLocation := some locB
    distance := 1000754/100
    estimatedDuration := some 20016
    fare := { baseFare := 22521965/100, totalFare := 26575919/100 }
    history := [⟨"created", "Ride request created"⟩,
      ⟨"accepted", "Ride status changed to accepted"⟩] }

/-! ### Helper lemmas for the lifecycle claims -/

/-- Evaluates `jsRound2` at a concrete rational. -/
lemma jsRound2_eval (x : ℚ) (n : ℤ) (h1 : (n : ℚ) ≤ x * 100 + 1/2)
    (h2 : x * 100 + 1/2 < (n : ℚ) + 1) : jsRound2 x = (n : ℚ) / 100 := by
  unfold jsRound2
  rw [show ⌊x * 100 + 1/2⌋ = n from Int.floor_eq_iff.mpr ⟨h1, by exact_mod_cast h2⟩]

/-- The `baseFare` field of `calculateFare`, as a closed form. -/
lemma calculateFare_baseFare (farePerKm distance : ℚ) (rideType : String) :
    (calculateFare farePerKm distance rideType).baseFare =
      jsRound2 (max (50 + distance * farePerKm * rideTypeMultipliers rideType) 80) := by
  unfold calculateFare
  dsimp only
  rw [ite_lt_eq_max]

lemma updateDestination_ok_origDrop {farePerKm : ℚ} {r : Ride} {d : Location} {r' : Ride}
    (h : updateDestination farePerKm r d = .ok r') :
    r'.originalDropLocation = r.originalDropLocation := by
  unfold updateDestination at h
  split at h
  · dsimp only at h
    split at h
    · injection h with h2; subst h2; rfl
    · injection h with h2; subst h2; rfl
  · exact Except.noConfusion h

lemma chainUpdates_origDrop (farePerKm : ℚ) (ds : List Location) : ∀ r : Ride,
    (chainUpdates farePerKm r ds).map (fun x => x.originalDropLocation) =
      (chainUpdates farePerKm r ds).map (fun _ => r.originalDropLocation) := by
  induction ds with
  | nil => intro r; rfl
  | cons d ds ih =>
    intro r
    show ((updateDestination farePerKm r d).bind fun r' =>
      chainUpdates farePerKm r' ds).map _ = ((updateDestination farePerKm r d).bind fun r' =>
      chainUpdates farePerKm r' ds).map _
    cases hu : updateDestination farePerKm r d with
    | error e => rfl
    | ok r1 =>
      show (chainUpdates farePerKm r1 ds).map _ = (chainUpdates farePerKm r1 ds).map _
      rw [ih r1, updateDestination_ok_origDrop hu]

lemma cancelRide_origDrop (r : Ride) (reason : Option String) :
    (cancelRide r reason).map (fun x => x.originalDropLocation) =
      (cancelRide r reason).map (fun _ => r.originalDropLocation) := by
  unfold cancelRide
  split
  · rfl
  · rfl

lemma bookRide_origDrop (farePerKm : ℚ) (state : List Ride) (uid : ℕ)
    (pickup drop : Location) (rideType : String) (notes : Option String) :
    (bookRide farePerKm state uid pickup drop rideType notes).map
        (fun x => x.1.originalDropLocation) =
      (bookRide farePerKm state uid pickup drop rideType notes).map
        (fun _ => some drop) := by
  unfold bookRide
  split
  · rfl
  · dsimp only
    split
    · rfl
    · rfl

lemma invariant_insert (state : List Ride) (uid : ℕ) (R : Ride)
    (hinv : atMostOneActivePerRider state)
    (hfalse : hasActiveRide state uid = false)
    (huid : R.userId = uid) :
    atMostOneActivePerRider (state ++ [R]) := by
  intro uid'
  rw [List.filter_append, List.length_append]
  by_cases hu : uid = uid'
  · subst hu
    have hnil : (state.filter fun r => r.userId == uid && isActiveStatus r.status) = [] := by
      rw [List.filter_eq_nil_iff]
      intro a ha
      have hall := List.any_eq_false.mp hfalse a ha
      simpa using hall
    rw [hnil]
    simpa using List.length_filter_le _ [R]
  · have hnil : (([R] : List Ride).filter
        fun r => r.userId == uid' && isActiveStatus r.status) = [] := by
      have hb : (R.userId == uid') = false := by
        rw [huid]
        exact beq_eq_false_iff_ne.mpr hu
      simp [List.filter, hb]
    rw [hnil]
    simpa using hinv uid'

/-! ### Claims about the ride lifecycle -/

/-- C1 (amended): cancelling a ride in {pending, accepted} transitions it to
"cancelled", sets `cancellationReason` and `cancelledBy`, appends exactly TWO
history entries (the route's push and the status-change hook's push) and
leaves every other field unchanged; on a ride in {started, completed,
cancelled} the command is rejected with `RideNotModifiable` and no updated
ride is produced. -/
theorem c1_cancel_spec (r : Ride) (reason : Option String) :
    ((r.status = "pending" ∨ r.status = "accepted") →
      ∃ r', cancelRide r reason = .ok r' ∧
        r'.status = "cancelled" ∧
        r'.cancellationReason = some (jsOrDefault reason "Cancelled by user") ∧
        r'.cancelledBy = some "user" ∧
        r'.history = r.history ++
          [⟨"cancelled", jsOrDefault reason "Cancelled by user"⟩,
           ⟨"cancelled", "Ride status changed to " ++ "cancelled"⟩] ∧
        r'.userId = r.userId ∧ r'.driverId = r.driverId ∧
        r'.pickupLocation = r.pickupLocation ∧ r'.dropLocation = r.dropLocation ∧
        r'.originalDropLocation = r.originalDropLocation ∧
        r'.distance = r.distance ∧ r'.estimatedDuration = r.estimatedDuration ∧
        r'.fare = r.fare ∧ r'.notes = r.notes) ∧
    ((r.status = "started" ∨ r.status = "completed" ∨ r.status = "cancelled") →
      cancelRide r reason = .error .rideNotModifiable) := by
  constructor
  · intro h
    unfold cancelRide
    rw [if_pos h]
    dsimp only
    refine ⟨_, rfl, rfl, rfl, rfl, ?_, rfl, rfl, rfl, rfl, rfl, rfl, rfl, rfl, rfl⟩
    rw [List.append_assoc]
    rfl
  · intro h
    unfold cancelRide
    rcases h with h | h | h <;> rw [h] <;> rfl

/-- C1 counterexample: cancelling a pending ride with one history entry leaves
THREE entries, i.e. the operation appended two entries, not exactly one as
the claim states. -/
theorem c1_counterexample :
    pendingRide.history.length = 1 ∧
    (cancelRide pendingRide none).map (fun r => r.history.length) = .ok 3 :=
  ⟨rfl, rfl⟩

/-- Witness for C1 at concrete rides in status "pending" and "started". -/
theorem c1_cancel_spec_witness :
    cancelRide startedRide none = .error .rideNotModifiable ∧
    (cancelRide pendingRide none).map (fun r => r.status) = .ok "cancelled" := by
  constructor
  · exact (c1_cancel_spec startedRide none).2 (Or.inl rfl)
  · obtain ⟨r', heq, hst, -⟩ := (c1_cancel_spec pendingRide none).1 (Or.inl rfl)
    rw [heq]
    exact congrArg (fun s => (Except.ok s : Except RideError String)) hst

/-- C2 (amended): updating the destination of a ride in {accepted, started}
sets `dropLocation`, recomputes the distance, recomputes the fare consistent
with a fresh quote for the DEFAULT category "economy" (the ride document does
not persist its booking category and the route passes no category), appends
exactly one history entry with action "destination_updated" and leaves the
other fields unchanged; on a ride in {pending, completed, cancelled} the
command is rejected with `RideNotModifiable` and no updated ride is
produced. -/
theorem c2_update_destination_spec (farePerKm : ℚ) (r : Ride) (d : Location) :
    ((r.status = "accepted" ∨ r.status = "started") →
      validateCoordinates d.coordinates.latitude d.coordinates.longitude →
      ∃ r', updateDestination farePerKm r d = .ok r' ∧
        r'.dropLocation = d ∧
        r'.distance = calculateDistance r.pickupLocation.coordinates.latitude
          r.pickupLocation.coordinates.longitude d.coordinates.latitude
          d.coordinates.longitude ∧
        r'.fare.baseFare = (estimateFare farePerKm r.pickupLocation d "economy").baseFare ∧
        r'.fare.totalFare = (estimateFare farePerKm r.pickupLocation d "economy").totalFare ∧
        r'.fare.currency = r.fare.currency ∧
        r'.history = r.history ++
          [⟨"destination_updated", "Destination updated to " ++ d.address⟩] ∧
        r'.status = r.status ∧ r'.userId = r.userId ∧
        r'.pickupLocation = r.pickupLocation ∧
        r'.originalDropLocation = r.originalDropLocation ∧
        r'.cancellationReason = r.cancellationReason ∧
        r'.cancelledBy = r.cancelledBy ∧ r'.notes = r.notes) ∧
    ((r.status = "pending" ∨ r.status = "completed" ∨ r.status = "cancelled") →
      updateDestination farePerKm r d = .error .rideNotModifiable) := by
  constructor
  · intro h _hv
    unfold updateDestination
    rw [if_pos h]
    dsimp only
    split
    · exact ⟨_, rfl, rfl, rfl, rfl, rfl, rfl, rfl, rfl, rfl, rfl, rfl, rfl, rfl, rfl⟩
    · exact ⟨_, rfl, rfl, rfl, rfl, rfl, rfl, rfl, rfl, rfl, rfl, rfl, rfl, rfl, rfl⟩
  · intro h
    unfold updateDestination
    rcases h with h | h | h <;> rw [h] <;> rfl

/-- Witness for C2 at concrete rides in status "accepted" and "pending". -/
theorem c2_update_destination_spec_witness :
    updateDestination 15 pendingRide locC = .error .rideNotModifiable ∧
    (updateDestination 15 premiumAcceptedRide locC).map (fun x => x.status) =
      .ok "accepted" := by
  constructor
  · exact (c2_update_destination_spec 15 pendingRide locC).2 (Or.inl rfl)
  · obtain ⟨r', heq, -, -, -, -, -, -, hst, -⟩ :=
      (c2_update_destination_spec 15 premiumAcceptedRide locC).1 (Or.inl rfl)
        (by norm_num [validateCoordinates, locC])
    rw [heq]
    exact congrArg (fun s => (Except.ok s : Except RideError String)) hst

/-- The economy re-quote of the `locA → locC` leg: base fare 150163.1. -/
lemma econFare_quarter : (estimateFare 15 locA locC "economy").baseFare = 1501631/10 := by
  unfold estimateFare
  dsimp only [locA, locC]
  rw [calculateDistance_quarter, calculateFare_baseFare]
  rw [show rideTypeMultipliers "economy" = 1 by simp [rideTypeMultipliers]]
  rw [max_eq_left (by norm_num)]
  rw [jsRound2_eval _ 15016310 (by norm_num) (by norm_num)]
  norm_num

/-- The premium quote of the `locA → locC` leg: base fare 225219.65. -/
lemma premFare_quarter : (estimateFare 15 locA locC "premium").baseFare = 22521965/100 := by
  unfold estimateFare
  dsimp only [locA, locC]
  rw [calculateDistance_quarter, calculateFare_baseFare]
  rw [show rideTypeMultipliers "premium" = 3/2 by simp [rideTypeMultipliers]]
  rw [max_eq_left (by norm_num)]
  rw [jsRound2_eval _ 22521965 (by norm_num) (by norm_num)]
  norm_num

/-- C2 counterexample: on a ride booked with category "premium" (its stored
fare is the premium quote) in status "accepted", `updateDestination`
recomputes the base fare as 150163.1 — the ECONOMY quote — while the fresh
quote for the ride's category "premium" is 225219.65. -/
theorem c2_counterexample :
    (updateDestination 15 premiumAcceptedRide locC).map (fun x => x.fare.baseFare) =
      .ok (1501631/10) ∧
    (estimateFare 15 premiumAcceptedRide.pickupLocation locC "premium").baseFare =
      22521965/100 ∧
    (1501631/10 : ℚ) ≠ 22521965/100 := by
  refine ⟨?_, premFare_quarter, by norm_num⟩
  unfold updateDestination
  rw [if_pos (show premiumAcceptedRide.status = "accepted" ∨
    premiumAcceptedRide.status = "started" from Or.inl rfl)]
  dsimp only [premiumAcceptedRide, locA, locC]
  rw [calculateDistance_quarter]
  rw [if_neg (by norm_num)]
  simp only [Except.map]
  exact congrArg (fun q => (Except.ok q : Except RideError ℚ)) econFare_quarter

/-- C4: a freshly booked ride has exactly one history entry, with action
"created"; cancel and update-destination only append to the history; hence
every reachable ride state has a non-empty history. -/
theorem c4_history_invariant :
    (∀ (farePerKm : ℚ) (state : List Ride) (uid : ℕ) (pickup drop : Location)
        (rideType : String) (notes : Option String),
      hasActiveRide state uid = false →
      (bookRide farePerKm state uid pickup drop rideType notes).map (fun x => x.1.history) =
        .ok [⟨"created", "Ride request created"⟩]) ∧
    (∀ (r : Ride) (reason : Option String) (r' : Ride),
      cancelRide r reason = .ok r' → ∃ t, t ≠ [] ∧ r'.history = r.history ++ t) ∧
    (∀ (farePerKm : ℚ) (r : Ride) (d : Location) (r' : Ride),
      updateDestination farePerKm r d = .ok r' →
        ∃ t, t ≠ [] ∧ r'.history = r.history ++ t) ∧
    (∀ (farePerKm : ℚ) (r : Ride), Reachable farePerKm r → r.history ≠ []) := by
  refine ⟨?_, ?_, ?_, ?_⟩
  · intro farePerKm state uid pickup drop rideType notes h
    unfold bookRide
    rw [if_neg (by simp [h])]
    dsimp only
    split
    · rfl
    · rfl
  · intro r reason r' h
    unfold cancelRide at h
    split at h
    · injection h with h2
      subst h2
      refine ⟨[⟨"cancelled", jsOrDefault reason "Cancelled by user"⟩,
        ⟨"cancelled", "Ride status changed to " ++ "cancelled"⟩], by simp, ?_⟩
      rw [List.append_assoc]
      rfl
    · exact Except.noConfusion h
  · intro farePerKm r d r' h
    unfold updateDestination at h
    split at h
    · dsimp only at h
      split at h
      · injection h with h2
        subst h2
        exact ⟨[⟨"destination_updated", "Destination updated to " ++ d.address⟩],
          by simp, rfl⟩
      · injection h with h2
        subst h2
        exact ⟨[⟨"destination_updated", "Destination updated to " ++ d.address⟩],
          by simp, rfl⟩
    · exact Except.noConfusion h
  · intro farePerKm r hr
    induction hr with
    | book state uid pickup drop rideType notes r s' h =>
      unfold bookRide at h
      split at h
      · exact Except.noConfusion h
      · dsimp only at h
        split at h <;>
        · simp only [Except.ok.injEq, Prod.mk.injEq] at h
          obtain ⟨h3, -⟩ := h
          subst h3
          simp
    | cancel r reason r' hr h ih =>
      unfold cancelRide at h
      split at h
      · injection h with h2
        subst h2
        simp
      · exact Except.noConfusion h
    | update r d r' hr h ih =>
      unfold updateDestination at h
      split at h
      · dsimp only at h
        split at h <;>
        · injection h with h2
          subst h2
          simp
      · exact Except.noConfusion h

/-- Witness for C4: booking on an empty collection produces exactly the
single "created" history entry. -/
theorem c4_history_invariant_witness :
    (bookRide 15 [] 1 locA locB "economy" none).map (fun x => x.1.history) =
      .ok [⟨"created", "Ride request created"⟩] :=
  c4_history_invariant.1 15 [] 1 locA locB "economy" none rfl

/-- C5: booking while the rider has a ride in {pending, accepted, started}
is rejected with the distinguishable `ActiveRideConflict` and produces no new
ride; a successful booking preserves the at-most-one-active-ride-per-rider
invariant. -/
theorem c5_active_ride_conflict (farePerKm : ℚ) (state : List Ride) (uid : ℕ)
    (pickup drop : Location) (rideType : String) (notes : Option String) :
    (hasActiveRide state uid = true →
      bookRide farePerKm state uid pickup drop rideType notes =
        .error .activeRideConflict) ∧
    (atMostOneActivePerRider state → ∀ r' s',
      bookRide farePerKm state uid pickup drop rideType notes = .ok (r', s') →
      atMostOneActivePerRider s') := by
  constructor
  · intro h
    unfold bookRide
    rw [if_pos h]
  · intro hinv r' s' h
    unfold bookRide at h
    by_cases hb : hasActiveRide state uid = true
    · rw [if_pos hb] at h
      exact Except.noConfusion h
    · rw [if_neg hb] at h
      have hfalse : hasActiveRide state uid = false := by
        cases hq : hasActiveRide state uid
        · rfl
        · exact absurd hq hb
      dsimp only at h
      split at h <;>
      · simp only [Except.ok.injEq, Prod.mk.injEq] at h
        obtain ⟨-, hs'⟩ := h
        subst hs'
        exact invariant_insert state uid _ hinv hfalse rfl

/-- Witness for C5: rider 1 already has a pending ride, so a second booking
returns the conflict error. -/
theorem c5_active_ride_conflict_witness :
    hasActiveRide [pendingRide] 1 = true ∧
    bookRide 15 [pendingRide] 1 locA locB "economy" none = .error .activeRideConflict :=
  ⟨rfl, (c5_active_ride_conflict 15 [pendingRide] 1 locA locB "economy" none).1 rfl⟩

/-- C6: `originalDropLocation` survives every finite chain of successful
`updateDestination` commands and every cancel unchanged (whether the chain
succeeds or is rejected, the recorded value never moves), and booking sets it
to the drop location supplied at creation. -/
theorem c6_original_drop_immutable (farePerKm : ℚ) (r : Ride) (ds : List Location) :
    ((chainUpdates farePerKm r ds).map (fun x => x.originalDropLocation) =
      (chainUpdates farePerKm r ds).map (fun _ => r.originalDropLocation)) ∧
    (∀ reason, (cancelRide r reason).map (fun x => x.originalDropLocation) =
      (cancelRide r reason).map (fun _ => r.originalDropLocation)) ∧
    (∀ (state : List Ride) (uid : ℕ) (rideType : String) (notes : Option String)
        (pickup drop : Location),
      (bookRide farePerKm state uid pickup drop rideType notes).map
          (fun x => x.1.originalDropLocation) =
        (bookRide farePerKm state uid pickup drop rideType notes).map
          (fun _ => some drop)) :=
  ⟨chainUpdates_origDrop farePerKm ds r,
   fun reason => cancelRide_origDrop r reason,
   fun state uid rideType notes pickup drop =>
     bookRide_origDrop farePerKm state uid pickup drop rideType notes⟩

